import Mathlib

/-!
# Verification of the Insta360 dual-fisheye → equirectangular RTMP streaming pipeline

Shallow embedding of the repository's Python sources:

* `insta360_processor.py` — `_init_mapping_table` (per-pixel spherical → fisheye
  projection, modelled over `ℝ`), `_blend_seam` (NumPy array arithmetic, modelled
  over `ℚ` with explicit broadcast-shape checks so that shape errors surface as
  `Except.error`), `process_frame`, and the `stop()` lifecycle (Python attribute
  lookup modelled with `Option`, `AttributeError` as an `Except.error`).
* `rtmp_streamer.py` — `push_frame` (bounded drop-oldest queue), the `_stream_loop`
  pacing step, and the `stop()` lifecycle.
* `advanced_processing.py` — the guard clauses of `detect_and_match_features`
  and `find_homography` (the OpenCV detector/matcher/RANSAC stages are external
  and appear as function parameters).

NumPy array semantics used by `_blend_seam`: a slice `a[:, lo:hi]` clamps its
bounds to the width; a negative start `a[:, -L:]` means the last `L` columns
except that `-0` denotes `0` (the whole width); an elementwise operation or a
slice assignment requires each dimension of the two operands to be equal or `1`,
and otherwise raises a broadcast `ValueError`.
-/

/-! ## Images as 3-channel rational matrices (NumPy model for `_blend_seam`) -/

/-- A `h × w × 3` image. Pixel values are rationals (the Python code works in
float arithmetic; the claims under study are shape/identity claims, which are
exact). -/
structure Img where
  h : ℕ
  w : ℕ
  pix : ℕ → ℕ → Fin 3 → ℚ

/-- `a[:, lo:hi]` for nonnegative `lo ≤ hi`: clamp both bounds to the width. -/
def sliceCols (a : Img) (lo hi : ℕ) : Img :=
  ⟨a.h, min hi a.w - min lo a.w, fun i j c => a.pix i (min lo a.w + j) c⟩

/-- `a[:, -L:]`. In Python `-0` is `0`, so `L = 0` selects the whole image. -/
def negSlice (a : Img) (L : ℕ) : Img :=
  if L = 0 then sliceCols a 0 a.w else sliceCols a (a.w - L) a.w

/-- NumPy broadcast compatibility for one dimension. -/
def dimCompat (d1 d2 : ℕ) : Bool := d1 == d2 || d1 == 1 || d2 == 1

/-- Resulting dimension when broadcasting two compatible dimensions. -/
def dimResult (d1 d2 : ℕ) : ℕ := if d1 = 1 then d2 else d1

/-- Elementwise binary operation with NumPy broadcasting over the two leading
dimensions (channels always agree). Incompatible shapes raise. -/
def ewise (op : ℚ → ℚ → ℚ) (a b : Img) : Except String Img :=
  if dimCompat a.h b.h && dimCompat a.w b.w then
    Except.ok ⟨dimResult a.h b.h, dimResult a.w b.w, fun i j c =>
      op (a.pix (if a.h = 1 then 0 else i) (if a.w = 1 then 0 else j) c)
         (b.pix (if b.h = 1 then 0 else i) (if b.w = 1 then 0 else j) c)⟩
  else Except.error "operands could not be broadcast together"

def imgMul (a b : Img) : Except String Img := ewise (fun p q => p * q) a b

def imgAdd (a b : Img) : Except String Img := ewise (fun p q => p + q) a b

/-- `1 - a`, a scalar-minus-array expression (always broadcastable). -/
def oneMinus (a : Img) : Img := ⟨a.h, a.w, fun i j c => 1 - a.pix i j c⟩

/-- The ramp weight array of `_blend_seam`: shape `(h, cols)` with
`weight[:, i] = i / cols`, expanded to 3 identical channels. -/
def weightImg (h cols : ℕ) : Img := ⟨h, cols, fun _ j _ => (j : ℚ) / (cols : ℚ)⟩

/-- `np.concatenate((a, b), axis=1)` (the code only concatenates equal-height
operands). -/
def hconcat (a b : Img) : Img :=
  ⟨a.h, a.w + b.w, fun i j c => if j < a.w then a.pix i j c else b.pix i (j - a.w) c⟩

/-- Slice assignment `dst[:, lo:hi] = src`: the source must broadcast to the
shape of the destination slice, else NumPy raises `ValueError`. -/
def assignCols (dst : Img) (lo hi : ℕ) (src : Img) : Except String Img :=
  let lo' := min lo dst.w
  let hi' := min hi dst.w
  if (src.h == dst.h || src.h == 1) && (src.w == hi' - lo' || src.w == 1) then
    Except.ok ⟨dst.h, dst.w, fun i j c =>
      if lo' ≤ j ∧ j < hi' then
        src.pix (if src.h = 1 then 0 else i) (if src.w = 1 then 0 else j - lo') c
      else dst.pix i j c⟩
  else Except.error "could not broadcast input array"

/-- `dst[:, -L:] = src` (again `-0` selects the whole width). -/
def assignNegCols (dst : Img) (L : ℕ) (src : Img) : Except String Img :=
  if L = 0 then assignCols dst 0 dst.w src else assignCols dst (dst.w - L) dst.w src

/-- `Insta360Processor._blend_seam`, translated statement by statement.
`outputWidth` is `self.output_width`, `overlapWidth` is `self.overlap_width`.
Shape errors of the underlying NumPy operations surface as `Except.error`. -/
def blendSeam (outputWidth overlapWidth : ℕ) (panorama : Img) : Except String Img :=
  let halfWidth := outputWidth / 2
  let leftOverlap := overlapWidth / 2
  let leftRegion1 := negSlice panorama leftOverlap
  let leftRegion2 := sliceCols panorama 0 leftOverlap
  let weight := weightImg leftRegion1.h (leftOverlap * 2)
  do
  let m1 ← imgMul leftRegion1 (oneMinus (sliceCols weight 0 leftOverlap))
  let m2 ← imgMul leftRegion2 (sliceCols weight leftOverlap (leftOverlap * 2))
  let _combinedLeft := hconcat leftRegion1 leftRegion2
  let blendedLeft ← imgAdd m1 m2
  let rightOverlap := overlapWidth / 2
  let rightSeamStart := halfWidth - rightOverlap
  let rightSeamEnd := halfWidth + rightOverlap
  let rightRegion1 := sliceCols panorama rightSeamStart halfWidth
  let rightRegion2 := sliceCols panorama halfWidth rightSeamEnd
  let weight2 := weightImg rightRegion1.h (rightOverlap * 2)
  let n1 ← imgMul rightRegion1 (oneMinus (sliceCols weight2 0 rightOverlap))
  let n2 ← imgMul rightRegion2 (sliceCols weight2 rightOverlap (rightOverlap * 2))
  let blendedRight ← imgAdd n1 n2
  let result := panorama
  let result ← assignNegCols result leftOverlap (sliceCols blendedLeft 0 leftOverlap)
  let result ← assignCols result 0 leftOverlap (sliceCols blendedLeft leftOverlap blendedLeft.w)
  let result ← assignCols result rightSeamStart rightSeamEnd
    (hconcat (sliceCols blendedRight 0 rightOverlap)
             (sliceCols blendedRight rightOverlap (rightOverlap * 2)))
  return result

/-! ## `RTMPStreamer.push_frame`: bounded drop-oldest queue -/

/-- A frame as seen by the queue: spatial shape plus a sequence tag standing for
its contents. -/
structure RFrame where
  height : ℕ
  width : ℕ
  tag : ℕ
deriving DecidableEq

/-- The part of `RTMPStreamer`'s state that `push_frame` reads and writes. The
queue list is ordered oldest-first. -/
structure RtmpQState where
  running : Bool
  width : ℕ
  height : ℕ
  capacity : ℕ
  queue : List RFrame
deriving DecidableEq

/-- `cv2.resize(frame, (width, height))` when the shape mismatches. -/
def resizeTo (w h : ℕ) (f : RFrame) : RFrame :=
  if f.height ≠ h ∨ f.width ≠ w then { f with height := h, width := w } else f

/-- `RTMPStreamer.push_frame`. Mirrors the code: bail out returning `False` if
not running; resize on shape mismatch; if the queue is full (`len ≥ maxsize`),
evict the oldest entry; `put_nowait` then succeeds iff there is room. -/
def pushFrame (s : RtmpQState) (f : RFrame) : Bool × RtmpQState :=
  if s.running = false then (false, s)
  else
    let f' := resizeTo s.width s.height f
    let q1 := if s.capacity ≤ s.queue.length then s.queue.tail else s.queue
    if q1.length < s.capacity then (true, { s with queue := q1 ++ [f'] })
    else (false, { s with queue := q1 })

/-- Push a list of sequence-tagged frames (shape matching the target), oldest
first, collecting the returned booleans. -/
def pushTags (s : RtmpQState) (tags : List ℕ) : List Bool × RtmpQState :=
  match tags with
  | [] => ([], s)
  | t :: ts =>
    let r := pushFrame s ⟨s.height, s.width, t⟩
    let rest := pushTags r.2 ts
    (r.1 :: rest.1, rest.2)

/-- The last `n` elements of a list. -/
def lastN (n : ℕ) (l : List α) : List α := l.drop (l.length - n)

/-! ## `RTMPStreamer._stream_loop`: one iteration of the paced consumer -/

/-- `time.sleep(0.001)` in the empty-queue branch. -/
def idleSleep : ℚ := 1 / 1000

/-- State observed by one iteration of the consumer loop: pending queue (tags),
the `next_frame_time` deadline, the current clock, and the emitted trace. Time
is idealized: `time.sleep(d)` advances the clock by exactly `d`. -/
structure LoopState where
  queue : List ℕ
  nextFrameTime : ℚ
  now : ℚ
  emitted : List ℕ
deriving DecidableEq

/-- One iteration of the body of `RTMPStreamer._stream_loop` (`fps > 0`;
`frame_time = 1.0 / fps`). Empty queue: sleep 1 ms and re-check. Otherwise:
pop the head, sleep `max 0 (next_frame_time - now)`, set
`next_frame_time = max(time.time(), next_frame_time + frame_time)`, and write
the frame to the encoder pipe (the emitted trace). -/
def streamIter (fps : ℚ) (s : LoopState) : LoopState :=
  match s.queue with
  | [] => { s with now := s.now + idleSleep }
  | f :: rest =>
    let frameTime := 1 / fps
    let currentTime := s.now
    let waitTime := max 0 (s.nextFrameTime - currentTime)
    let afterSleep := currentTime + waitTime
    { queue := rest
      nextFrameTime := max afterSleep (s.nextFrameTime + frameTime)
      now := afterSleep
      emitted := s.emitted ++ [f] }

/-! ## `stop()` lifecycles -/

/-- Python exceptions reachable in the modelled fragment. -/
inductive PyErr where
  | attributeError
  | valueError
deriving DecidableEq

/-- Lifecycle state of `Insta360Processor`. `threadAttr = none` means the
attribute `self.thread` was never assigned (reading it raises
`AttributeError`); `some alive` is a thread object. `capAttr = none` is the
Python value `None`; `some opened` is a `VideoCapture`. -/
structure InstaLifecycle where
  running : Bool
  threadAttr : Option Bool
  capAttr : Option Bool
deriving DecidableEq

/-- `Insta360Processor.__init__`: sets `self.running = False` and
`self.cap = None`, but never assigns `self.thread`. -/
def instaInit : InstaLifecycle := { running := false, threadAttr := none, capAttr := none }

/-- `Insta360Processor.start()` (reduced to the lifecycle fields): opens the
capture device, sets the running flag and spawns the capture thread. -/
def instaStart (s : InstaLifecycle) : InstaLifecycle :=
  if s.running then s
  else { running := true, threadAttr := some true, capAttr := some true }

/-- `Insta360Processor.stop()`: clears the flag, then evaluates
`self.thread is not None` — which first reads `self.thread`, raising
`AttributeError` when the attribute was never assigned — joins the thread, and
releases the capture device if set. -/
def instaStop (s : InstaLifecycle) : Except PyErr InstaLifecycle :=
  let s1 := { s with running := false }
  match s1.threadAttr with
  | none => Except.error PyErr.attributeError
  | some _ =>
    let s2 := { s1 with threadAttr := some false }
    match s2.capAttr with
    | none => Except.ok s2
    | some _ => Except.ok { s2 with capAttr := some false }

/-- Lifecycle state of `RTMPStreamer`: thread and process attributes are both
assigned (to `None`) in `__init__`, so reading them never raises. -/
structure RtmpLifecycle where
  running : Bool
  thread : Option Bool
  process : Option Bool
  queue : List ℕ
deriving DecidableEq

/-- `RTMPStreamer.__init__` (lifecycle fields). -/
def rtmpInit : RtmpLifecycle := { running := false, thread := none, process := none, queue := [] }

/-- `RTMPStreamer.stop()`: clear the flag; join the thread if set (bounded
timeout, the loop observes the flag and exits, so the thread is no longer
alive); terminate-then-kill the process if set and reset it to `None`; drain
the queue. Total — never raises. -/
def rtmpStop (s : RtmpLifecycle) : RtmpLifecycle :=
  let s1 := { s with running := false }
  let s2 := match s1.thread with
    | none => s1
    | some _ => { s1 with thread := some false }
  let s3 := match s2.process with
    | none => s2
    | some _ => { s2 with process := none }
  { s3 with queue := [] }

/-! ## Calibration utilities (`advanced_processing.py`) -/

/-- A feature match as used by the guards: query/train indices and a distance. -/
structure FMatch where
  queryIdx : ℕ
  trainIdx : ℕ
  distance : ℚ
deriving DecidableEq

/-- `detect_and_match_features` after the external
`detector.detectAndCompute` stage: `kp1/des1` and `kp2/des2` are its outputs
(`desᵢ = none` models a `None` descriptor array), and `matchStage` abstracts
the external BFMatcher + Lowe-ratio filtering applied when the guard passes. -/
def detectAndMatchFeatures {K D : Type} (kp1 : List K) (des1 : Option D)
    (kp2 : List K) (des2 : Option D)
    (matchStage : D → D → List FMatch) : List FMatch × List K × List K :=
  if des1.isNone || des2.isNone || kp1.length < 2 || kp2.length < 2 then
    ([], [], [])
  else
    match des1, des2 with
    | some d1, some d2 => (matchStage d1 d2, kp1, kp2)
    | _, _ => ([], [], [])

/-- `find_homography`: returns `None` on fewer than 4 good matches, otherwise
runs the external RANSAC homography estimation (`ransac`), which may itself
return `None`. Keypoints are source-image points. -/
def findHomography {P M : Type} [Inhabited P] (kp1 kp2 : List P) (goodMatches : List FMatch)
    (ransac : List P → List P → Option M) : Option M :=
  if goodMatches.length < 4 then none
  else ransac (goodMatches.map (fun m => kp1.getD m.queryIdx default))
              (goodMatches.map (fun m => kp2.getD m.trainIdx default))

/-! ## `Insta360Processor._init_mapping_table`: per-pixel projection over `ℝ`

The Python loop fills `map_x[y, x]` / `map_y[y, x]` independently per output
pixel, starting from zero-initialized arrays; a pixel is skipped (left at 0)
when `r == 0` or when the computed fisheye coordinate falls outside
`[0, width) × [0, height)`. The arithmetic is modelled exactly over `ℝ`. -/

/-- Per-lens calibration: normalized center, normalized radius, angular
offset (radians). -/
structure LensParams where
  cx : ℝ
  cy : ℝ
  radius : ℝ
  offsetAngle : ℝ

/-- The pair `self.fisheye_params` of left/right lens parameters. -/
structure CalibrationSet where
  left : LensParams
  right : LensParams

/-- The built-in default parameters of `Insta360Processor.__init__`
(`cx` 0.0/1.0, `cy` 0.5, `radius` 0.48, `offset_angle` 0.0). -/
noncomputable def defaultCal : CalibrationSet :=
  ⟨⟨0, 1 / 2, 48 / 100, 0⟩, ⟨1, 1 / 2, 48 / 100, 0⟩⟩

/-- `np.arctan2 y x`. -/
noncomputable def arctan2 (y x : ℝ) : ℝ :=
  if 0 < x then Real.arctan (y / x)
  else if x < 0 then
    (if 0 ≤ y then Real.arctan (y / x) + Real.pi else Real.arctan (y / x) - Real.pi)
  else if 0 < y then Real.pi / 2
  else if y < 0 then -(Real.pi / 2)
  else 0

/-- `theta = 2 * np.pi * x / W - np.pi`. -/
noncomputable def eqTheta (W x : ℕ) : ℝ := 2 * Real.pi * x / W - Real.pi

/-- `phi = np.pi * y / H - np.pi / 2`. -/
noncomputable def eqPhi (H y : ℕ) : ℝ := Real.pi * y / H - Real.pi / 2

/-- `x_3d = cos(phi) * cos(theta)`. -/
noncomputable def vX (W H x y : ℕ) : ℝ := Real.cos (eqPhi H y) * Real.cos (eqTheta W x)

/-- `y_3d = cos(phi) * sin(theta)`. -/
noncomputable def vY (W H x y : ℕ) : ℝ := Real.cos (eqPhi H y) * Real.sin (eqTheta W x)

/-- `z_3d = sin(phi)`. -/
noncomputable def vZ (H y : ℕ) : ℝ := Real.sin (eqPhi H y)

/-- Lens selection: the right lens iff `-pi/2 <= theta <= pi/2`, else left. -/
noncomputable def lensFor (cal : CalibrationSet) (W x : ℕ) : LensParams :=
  if -(Real.pi / 2) ≤ eqTheta W x ∧ eqTheta W x ≤ Real.pi / 2 then cal.right else cal.left

/-- `theta_fisheye = arctan2(y_3d, x_3d) + params['offset_angle']`. -/
noncomputable def thetaFisheye (cal : CalibrationSet) (W H x y : ℕ) : ℝ :=
  arctan2 (vY W H x y) (vX W H x y) + (lensFor cal W x).offsetAngle

/-- `rho_fisheye = arccos(z_3d / sqrt(x_3d² + y_3d² + z_3d²)) / pi`. -/
noncomputable def rhoFisheye (W H x y : ℕ) : ℝ :=
  Real.arccos (vZ H y /
    Real.sqrt (vX W H x y * vX W H x y + vY W H x y * vY W H x y + vZ H y * vZ H y)) / Real.pi

/-- The fisheye source coordinate `(x_fisheye, y_fisheye)` computed for output
pixel `(x, y)` against source resolution `(Sw, Sh)` (the `width`/`height` of
the first captured frame). -/
noncomputable def srcCoord (cal : CalibrationSet) (W H Sw Sh x y : ℕ) : ℝ × ℝ :=
  ((lensFor cal W x).cx * Sw
     + (lensFor cal W x).radius * Sw * rhoFisheye W H x y * Real.cos (thetaFisheye cal W H x y),
   (lensFor cal W x).cy * Sh
     + (lensFor cal W x).radius * Sh * rhoFisheye W H x y * Real.sin (thetaFisheye cal W H x y))

/-- The value `(map_x[y, x], map_y[y, x])` left in the table by
`_init_mapping_table`: the computed source coordinate when `r ≠ 0` and the
coordinate is inside `[0, Sw) × [0, Sh)`, and the zero-initialized `(0, 0)`
otherwise (skipped pixel). -/
noncomputable def mapEntry (cal : CalibrationSet) (W H Sw Sh x y : ℕ) : ℝ × ℝ :=
  if Real.sqrt (vX W H x y * vX W H x y + vZ H y * vZ H y) = 0 then (0, 0)
  else if 0 ≤ (srcCoord cal W H Sw Sh x y).1 ∧ (srcCoord cal W H Sw Sh x y).1 < Sw ∧
          0 ≤ (srcCoord cal W H Sw Sh x y).2 ∧ (srcCoord cal W H Sw Sh x y).2 < Sh then
    srcCoord cal W H Sw Sh x y
  else (0, 0)

/-! ## `Insta360Processor.process_frame` -/

/-- The processor state read/written by `process_frame`: whether the mapping
table has been built, the filter toggles, and the seam-blend geometry. -/
structure ProcPipelineState where
  mapBuilt : Bool
  useBrightnessEqualization : Bool
  useColorBalance : Bool
  outputWidth : ℕ
  overlapWidth : ℕ
deriving DecidableEq

/-- `Insta360Processor.process_frame`. `remap` abstracts `cv2.remap` through
the cached table, and `eqBrightness`/`colorBal` abstract the external filters
from `advanced_processing`; the seam blend is the `blendSeam` model above, so
its NumPy shape errors propagate. A `None` frame returns `None` immediately. -/
def processFrame (remap eqBrightness colorBal : Img → Img)
    (s : ProcPipelineState) (frame : Option Img) :
    Except String (Option Img × ProcPipelineState) :=
  match frame with
  | none => Except.ok (none, s)
  | some f =>
    let s1 := if s.mapBuilt then s else { s with mapBuilt := true }
    let pano0 := remap f
    do
    let pano1 ← blendSeam s1.outputWidth s1.overlapWidth pano0
    let pano2 := if s1.useBrightnessEqualization then eqBrightness pano1 else pano1
    let pano3 := if s1.useColorBalance then colorBal pano2 else pano2
    return (some pano3, s1)

/-! # Helper lemmas -/

lemma lastN_length_le (n : ℕ) (l : List α) : (lastN n l).length ≤ n := by
  simp only [lastN, List.length_drop]
  omega

lemma lastN_of_length_le (n : ℕ) (l : List α) (h : l.length ≤ n) : lastN n l = l := by
  simp [lastN, Nat.sub_eq_zero_of_le h]

lemma lastN_append (n : ℕ) (l l₂ : List α) :
    lastN n (lastN n l ++ l₂) = lastN n (l ++ l₂) := by
  unfold lastN
  rw [← @List.drop_append_of_le_length _ l l₂ (l.length - n) (by omega), List.drop_drop]
  congr 1
  simp only [List.length_append, List.length_drop]
  omega

lemma resizeTo_matching (w h t : ℕ) : resizeTo w h ⟨h, w, t⟩ = ⟨h, w, t⟩ := by
  simp [resizeTo]

lemma pushFrame_running (s : RtmpQState) (f : RFrame) (hrun : s.running = true)
    (hcap : 0 < s.capacity) (hlen : s.queue.length ≤ s.capacity) :
    pushFrame s f =
      (true, { s with queue := lastN s.capacity (s.queue ++ [resizeTo s.width s.height f]) }) := by
  unfold pushFrame
  rw [if_neg (by simp [hrun])]
  by_cases hq : s.capacity ≤ s.queue.length
  · have hlen' : s.queue.length = s.capacity := le_antisymm hlen hq
    have h1 : s.queue.tail.length < s.capacity := by
      rw [List.length_tail]
      omega
    rw [if_pos hq, if_pos h1]
    have h2 : lastN s.capacity (s.queue ++ [resizeTo s.width s.height f]) =
        s.queue.tail ++ [resizeTo s.width s.height f] := by
      unfold lastN
      rw [List.length_append]
      have h3 : s.queue.length + [resizeTo s.width s.height f].length - s.capacity = 1 := by
        simp only [List.length_singleton]
        omega
      rw [h3, List.drop_append_of_le_length (by omega), List.drop_one]
    rw [h2]
  · push_neg at hq
    rw [if_neg (show ¬ s.capacity ≤ s.queue.length from by omega)]
    rw [if_pos hq]
    have h2 : lastN s.capacity (s.queue ++ [resizeTo s.width s.height f]) =
        s.queue ++ [resizeTo s.width s.height f] := by
      apply lastN_of_length_le
      simp only [List.length_append, List.length_singleton]
      omega
    rw [h2]

lemma pushTags_running (ts : List ℕ) (s : RtmpQState) (hrun : s.running = true)
    (hcap : 0 < s.capacity) (hlen : s.queue.length ≤ s.capacity) :
    pushTags s ts =
      (List.replicate ts.length true,
       { s with queue :=
           lastN s.capacity (s.queue ++ ts.map (fun t => (⟨s.height, s.width, t⟩ : RFrame))) }) := by
  induction ts generalizing s with
  | nil =>
    simp [pushTags, lastN_of_length_le _ _ hlen]
  | cons t ts ih =>
    have hpush := pushFrame_running s ⟨s.height, s.width, t⟩ hrun hcap hlen
    rw [resizeTo_matching] at hpush
    have hstep := ih { s with queue := lastN s.capacity (s.queue ++ [⟨s.height, s.width, t⟩]) }
      hrun hcap (lastN_length_le _ _)
    simp only [pushTags, hpush, hstep, List.length_cons, List.replicate_succ, List.map_cons,
      Prod.mk.injEq, RtmpQState.mk.injEq, true_and]
    rw [lastN_append]
    simp only [List.append_assoc, List.singleton_append]

lemma add_max_zero_sub (a b : ℚ) : a + max 0 (b - a) = max a b := by
  rcases le_total a b with h | h
  · rw [max_eq_right (sub_nonneg.mpr h), max_eq_right h]
    ring
  · rw [max_eq_left (sub_nonpos.mpr h), max_eq_left h]
    ring

/-! # Claim theorems -/

/-- C3: starting from a running `RTMPStreamer` with an empty queue of capacity
`C` and no consumer, pushing `N > C` sequence-tagged frames via `push_frame`
returns success for every push (never blocks, never fails due to capacity),
leaves exactly the most recent `C` tags in FIFO order, and the queue length
never exceeds `C` after any prefix of the pushes. -/
theorem push_frame_queue_law (C N w h : ℕ) (hC : 0 < C) (hN : C < N) :
    (pushTags ⟨true, w, h, C, []⟩ (List.range N)).1 = List.replicate N true ∧
    (pushTags ⟨true, w, h, C, []⟩ (List.range N)).2.queue.map RFrame.tag
      = (List.range N).drop (N - C) ∧
    ∀ k : ℕ, (pushTags ⟨true, w, h, C, []⟩ ((List.range N).take k)).2.queue.length ≤ C := by
  have hmain := pushTags_running (List.range N) ⟨true, w, h, C, []⟩ rfl hC (by simp)
  refine ⟨?_, ?_, ?_⟩
  · rw [hmain]
    simp
  · rw [hmain]
    unfold lastN
    simp only [List.nil_append, List.length_map, List.length_range, ← List.map_drop,
      List.map_map]
    have htag : (RFrame.tag ∘ fun t => (⟨h, w, t⟩ : RFrame)) = id := rfl
    rw [htag, List.map_id]
  · intro k
    have hk := pushTags_running ((List.range N).take k) ⟨true, w, h, C, []⟩ rfl hC (by simp)
    rw [hk]
    exact lastN_length_le _ _

/-- C3 witness: capacity 3, five pushes tagged 0..4: all succeed and the queue
retains tags [2, 3, 4]. -/
theorem push_frame_queue_law_witness :
    0 < 3 ∧ 3 < 5 ∧
    (pushTags ⟨true, 2, 2, 3, []⟩ (List.range 5)).1 = List.replicate 5 true ∧
    (pushTags ⟨true, 2, 2, 3, []⟩ (List.range 5)).2.queue.map RFrame.tag = [2, 3, 4] := by
  refine ⟨by decide, by decide, (push_frame_queue_law 3 5 2 2 (by decide) (by decide)).1, ?_⟩
  exact ((push_frame_queue_law 3 5 2 2 (by decide) (by decide)).2.1).trans (by decide)

/-- C4 (code bug): `_blend_seam` does not return a uniform panorama unchanged —
it raises a NumPy broadcast `ValueError` on every nonempty input, because
`blended_left` has only `left_overlap` columns yet the code assigns the empty
slice `blended_left[:, left_overlap:]` into `result[:, :left_overlap]`.
Failing input: a uniform 2×8×3 panorama with every pixel 5, `output_width = 8`,
`overlap_width = 2`. -/
theorem blend_seam_uniform_raises :
    blendSeam 8 2 ⟨2, 8, fun _ _ _ => (5 : ℚ)⟩ =
      Except.error "could not broadcast input array" := by
  rfl

/-- C5 (code bug): `Insta360Processor.__init__` never assigns `self.thread`, so
`stop()` before `start()` raises `AttributeError` on the Insta360 side; the
RTMP streamer's `stop()` is total and idempotent from the initial state. -/
theorem stop_before_start_raises :
    instaStop instaInit = Except.error PyErr.attributeError ∧
    rtmpStop rtmpInit = rtmpInit ∧
    rtmpStop (rtmpStop rtmpInit) = rtmpInit := by
  refine ⟨rfl, by decide, by decide⟩

/-- C6: an iteration of the consumer loop that emits a frame first sleeps until
the current deadline (`now` becomes `max now deadline`) and then sets the next
deadline to `max now' (deadline + 1/fps)`; an iteration that finds the queue
empty sleeps 1 ms and re-checks without touching the deadline or emitting. -/
theorem stream_loop_pacing (fps : ℚ) (s : LoopState) :
    (∀ f rest, s.queue = f :: rest →
      streamIter fps s =
        { queue := rest
          nextFrameTime := max (max s.now s.nextFrameTime) (s.nextFrameTime + 1 / fps)
          now := max s.now s.nextFrameTime
          emitted := s.emitted ++ [f] }) ∧
    (s.queue = [] →
      streamIter fps s = { s with now := s.now + idleSleep }) := by
  obtain ⟨q, dl, nw, em⟩ := s
  constructor
  · intro f rest hq
    simp only at hq
    subst hq
    simp only [streamIter, add_max_zero_sub]
  · intro hq
    simp only at hq
    subst hq
    simp only [streamIter]

/-- C6 witness: an emitting iteration at `now = 9`, deadline 10, fps 30, and an
empty-queue iteration from the same clock. -/
theorem stream_loop_pacing_witness :
    (⟨[7, 8], 10, 9, []⟩ : LoopState).queue = 7 :: [8] ∧
    streamIter 30 ⟨[7, 8], 10, 9, []⟩ =
      { queue := [8], nextFrameTime := 301 / 30, now := 10, emitted := [7] } ∧
    (⟨[], 10, 9, []⟩ : LoopState).queue = [] ∧
    streamIter 30 ⟨[], 10, 9, []⟩ =
      { queue := [], nextFrameTime := 10, now := 9 + 1 / 1000, emitted := [] } := by
  refine ⟨rfl, ?_, rfl, ?_⟩
  · rw [(stream_loop_pacing 30 ⟨[7, 8], 10, 9, []⟩).1 7 [8] rfl]
    have h9 : max (9 : ℚ) 10 = 10 := by norm_num
    have h10 : max (10 : ℚ) (10 + 1 / 30) = 10 + 1 / 30 := by
      rw [max_eq_right]
      norm_num
    simp only [LoopState.mk.injEq, h9, h10, List.nil_append]
    norm_num
  · rw [(stream_loop_pacing 30 ⟨[], 10, 9, []⟩).2 rfl]
    simp [idleSleep]

/-- C7: `push_frame` on a streamer that is not running returns `False` and
leaves the whole streamer state (queue included) unchanged: no resize, no
enqueue, no eviction. -/
theorem push_frame_stopped (s : RtmpQState) (f : RFrame) (h : s.running = false) :
    pushFrame s f = (false, s) := by
  simp [pushFrame, h]

/-- C7 witness. -/
theorem push_frame_stopped_witness :
    (⟨false, 4, 4, 10, []⟩ : RtmpQState).running = false ∧
    pushFrame ⟨false, 4, 4, 10, []⟩ ⟨7, 9, 3⟩ = (false, ⟨false, 4, 4, 10, []⟩) :=
  ⟨rfl, push_frame_stopped _ _ rfl⟩

/-- C8 (code bug): `_blend_seam` never reaches its return — for any nonempty
panorama it raises a broadcast `ValueError` at
`result[:, :left_overlap] = blended_left[:, left_overlap:]` (the source slice
is empty because `blended_left` has only `left_overlap` columns), so it does
not return an image of identical dimensions with the outside-window pixels
unchanged. Failing input: a 1×8×3 column-ramp panorama, `output_width = 8`,
`overlap_width = 2`. -/
theorem blend_seam_raises_on_nonempty :
    blendSeam 8 2 ⟨1, 8, fun _ j _ => (j : ℚ)⟩ =
      Except.error "could not broadcast input array" := by
  rfl

/-- C9: the offline calibration utilities return an explicit "no result" on
insufficient input: `detect_and_match_features` returns empty match/keypoint
lists when either descriptor array is `None` or either image has fewer than 2
keypoints, and `find_homography` returns `None` on fewer than 4 good matches. -/
theorem calibration_no_result_guards {K D P M : Type} [Inhabited P]
    (kp1 kp2 : List K) (des1 des2 : Option D) (matchStage : D → D → List FMatch)
    (pts1 pts2 : List P) (goodMatches : List FMatch) (ransac : List P → List P → Option M)
    (hguard : des1.isNone = true ∨ des2.isNone = true ∨ kp1.length < 2 ∨ kp2.length < 2)
    (hm : goodMatches.length < 4) :
    detectAndMatchFeatures kp1 des1 kp2 des2 matchStage = ([], [], []) ∧
    findHomography pts1 pts2 goodMatches ransac = none := by
  constructor
  · rcases hguard with h | h | h | h <;> simp [detectAndMatchFeatures, h]
  · unfold findHomography
    rw [if_pos hm]

/-- C9 witness: no descriptors in image 1 and an empty match list. -/
theorem calibration_no_result_guards_witness :
    detectAndMatchFeatures ([] : List ℕ) (none : Option ℕ) [] none (fun _ _ => []) =
      ([], [], []) ∧
    findHomography ([(0, 0)] : List (ℕ × ℕ)) [(0, 0)] [] (fun _ _ => some 1) = none :=
  calibration_no_result_guards ([] : List ℕ) [] (none : Option ℕ) none (fun _ _ => [])
    [((0 : ℕ), (0 : ℕ))] [(0, 0)] [] (fun _ _ => some (1 : ℕ)) (Or.inl rfl) (by decide)

/-- C10: `process_frame` called with a `None` frame returns `None` without
raising, without building the mapping table, and without applying the seam
blend or any filter — the processor state is returned unchanged. -/
theorem process_frame_none (remap eqBrightness colorBal : Img → Img)
    (s : ProcPipelineState) :
    processFrame remap eqBrightness colorBal s none = Except.ok (none, s) := rfl

/-! # Projection-table claims (C1, C2) -/

/-- A calibration with both lens centers strictly inside the image, used to
instantiate the projection theorems at a pixel that maps in-bounds. -/
noncomputable def testCal : CalibrationSet :=
  ⟨⟨0, 1 / 2, 1 / 2, 0⟩, ⟨1 / 2, 1 / 2, 1 / 2, 0⟩⟩

lemma eqTheta_4_2 : eqTheta 4 2 = 0 := by
  unfold eqTheta
  push_cast
  ring

lemma eqPhi_2_1 : eqPhi 2 1 = 0 := by
  unfold eqPhi
  push_cast
  ring

lemma vX_4_2_2_1 : vX 4 2 2 1 = 1 := by
  simp [vX, eqPhi_2_1, eqTheta_4_2]

lemma vY_4_2_2_1 : vY 4 2 2 1 = 0 := by
  simp [vY, eqPhi_2_1, eqTheta_4_2]

lemma vZ_2_1 : vZ 2 1 = 0 := by
  simp [vZ, eqPhi_2_1]

lemma r_4_2_2_1 : Real.sqrt (vX 4 2 2 1 * vX 4 2 2 1 + vZ 2 1 * vZ 2 1) = 1 := by
  rw [vX_4_2_2_1, vZ_2_1]
  norm_num

lemma lensFor_testCal_4_2 : lensFor testCal 4 2 = testCal.right := by
  unfold lensFor
  rw [eqTheta_4_2, if_pos]
  constructor
  · linarith [Real.pi_pos]
  · linarith [Real.pi_pos]

lemma thetaFisheye_testCal_4_2_2_1 : thetaFisheye testCal 4 2 2 1 = 0 := by
  unfold thetaFisheye
  rw [vY_4_2_2_1, vX_4_2_2_1, lensFor_testCal_4_2]
  unfold arctan2
  rw [if_pos one_pos]
  norm_num [Real.arctan_zero]
  rfl

lemma rhoFisheye_4_2_2_1 : rhoFisheye 4 2 2 1 = 1 / 2 := by
  unfold rhoFisheye
  rw [vX_4_2_2_1, vY_4_2_2_1, vZ_2_1]
  norm_num [Real.arccos_zero]
  rw [div_div, div_eq_iff (by positivity : (2 : ℝ) * Real.pi ≠ 0)]
  ring

lemma srcCoord_testCal : srcCoord testCal 4 2 100 100 2 1 = (75, 50) := by
  unfold srcCoord
  rw [lensFor_testCal_4_2, thetaFisheye_testCal_4_2_2_1, rhoFisheye_4_2_2_1]
  show ((1 : ℝ) / 2 * (100 : ℕ) + 1 / 2 * (100 : ℕ) * (1 / 2) * Real.cos 0,
        (1 : ℝ) / 2 * (100 : ℕ) + 1 / 2 * (100 : ℕ) * (1 / 2) * Real.sin 0) = (75, 50)
  rw [Real.cos_zero, Real.sin_zero]
  push_cast
  norm_num

/-- C1: for every output pixel `(x, y)` inside the output raster whose ray has
`r = sqrt(vx² + vz²) ≠ 0` and whose computed source coordinate lies inside
`[0, Sw) × [0, Sh)`, the mapping table stores exactly
`src_x = cx·Sw + radius·Sw·radial·cos(azimuth)` and
`src_y = cy·Sh + radius·Sh·radial·sin(azimuth)`, where the right-lens
parameters are used iff `θ ∈ [−π/2, π/2]` (ties to the right lens),
`azimuth = atan2(vy, vx) + offset_angle`, and `radial = acos(vz / ‖v‖) / π`. -/
theorem mapping_table_formula (cal : CalibrationSet) (W H Sw Sh x y : ℕ)
    (hx : x < W) (hy : y < H)
    (hr : Real.sqrt (vX W H x y * vX W H x y + vZ H y * vZ H y) ≠ 0)
    (hin : 0 ≤ (srcCoord cal W H Sw Sh x y).1 ∧ (srcCoord cal W H Sw Sh x y).1 < Sw ∧
           0 ≤ (srcCoord cal W H Sw Sh x y).2 ∧ (srcCoord cal W H Sw Sh x y).2 < Sh) :
    mapEntry cal W H Sw Sh x y =
      ((if -(Real.pi / 2) ≤ eqTheta W x ∧ eqTheta W x ≤ Real.pi / 2
          then cal.right else cal.left).cx * Sw
         + (if -(Real.pi / 2) ≤ eqTheta W x ∧ eqTheta W x ≤ Real.pi / 2
              then cal.right else cal.left).radius * Sw
           * (Real.arccos (vZ H y /
                Real.sqrt (vX W H x y * vX W H x y + vY W H x y * vY W H x y
                             + vZ H y * vZ H y)) / Real.pi)
           * Real.cos (arctan2 (vY W H x y) (vX W H x y)
               + (if -(Real.pi / 2) ≤ eqTheta W x ∧ eqTheta W x ≤ Real.pi / 2
                    then cal.right else cal.left).offsetAngle),
       (if -(Real.pi / 2) ≤ eqTheta W x ∧ eqTheta W x ≤ Real.pi / 2
          then cal.right else cal.left).cy * Sh
         + (if -(Real.pi / 2) ≤ eqTheta W x ∧ eqTheta W x ≤ Real.pi / 2
              then cal.right else cal.left).radius * Sh
           * (Real.arccos (vZ H y /
                Real.sqrt (vX W H x y * vX W H x y + vY W H x y * vY W H x y
                             + vZ H y * vZ H y)) / Real.pi)
           * Real.sin (arctan2 (vY W H x y) (vX W H x y)
               + (if -(Real.pi / 2) ≤ eqTheta W x ∧ eqTheta W x ≤ Real.pi / 2
                    then cal.right else cal.left).offsetAngle)) := by
  unfold mapEntry
  rw [if_neg hr, if_pos hin]
  rfl

/-- C1 witness: a 4×2 output raster, source 100×100, pixel (2, 1):
`θ = 0`, `φ = 0`, the right lens is selected, and the table stores (75, 50). -/
theorem mapping_table_formula_witness :
    (2 < 4 ∧ 1 < 2 ∧
     Real.sqrt (vX 4 2 2 1 * vX 4 2 2 1 + vZ 2 1 * vZ 2 1) ≠ 0 ∧
     (0 ≤ (srcCoord testCal 4 2 100 100 2 1).1 ∧ (srcCoord testCal 4 2 100 100 2 1).1 < 100 ∧
      0 ≤ (srcCoord testCal 4 2 100 100 2 1).2 ∧ (srcCoord testCal 4 2 100 100 2 1).2 < 100)) ∧
    mapEntry testCal 4 2 100 100 2 1 = (75, 50) := by
  have hr : Real.sqrt (vX 4 2 2 1 * vX 4 2 2 1 + vZ 2 1 * vZ 2 1) ≠ 0 := by
    rw [r_4_2_2_1]
    norm_num
  have hin : 0 ≤ (srcCoord testCal 4 2 100 100 2 1).1 ∧
      (srcCoord testCal 4 2 100 100 2 1).1 < (100 : ℕ) ∧
      0 ≤ (srcCoord testCal 4 2 100 100 2 1).2 ∧
      (srcCoord testCal 4 2 100 100 2 1).2 < (100 : ℕ) := by
    rw [srcCoord_testCal]
    push_cast
    norm_num
  have h := mapping_table_formula testCal 4 2 100 100 2 1 (by norm_num) (by norm_num) hr hin
  refine ⟨⟨by norm_num, by norm_num, hr, by push_cast at hin ⊢; exact hin⟩, ?_⟩
  rw [show mapEntry testCal 4 2 100 100 2 1 = srcCoord testCal 4 2 100 100 2 1 by
        unfold mapEntry
        rw [if_neg hr, if_pos hin],
      srcCoord_testCal]

lemma eqTheta_4_1 : eqTheta 4 1 = -(Real.pi / 2) := by
  unfold eqTheta
  push_cast
  ring

lemma vX_4_2_1_1 : vX 4 2 1 1 = 0 := by
  simp [vX, eqPhi_2_1, eqTheta_4_1, Real.cos_pi_div_two]

lemma r_4_2_1_1 : Real.sqrt (vX 4 2 1 1 * vX 4 2 1 1 + vZ 2 1 * vZ 2 1) = 0 := by
  rw [vX_4_2_1_1, vZ_2_1]
  norm_num

/-- C2 counterexample: at output pixel `(1, 1)` of a 4×2 output raster
(`θ = −π/2`, `φ = 0`, so `r = sqrt(vx² + vz²) = 0` — the code's singularity
skip), the table keeps the zero-initialized entry `(0, 0)`, and `(0, 0)` lies
inside the valid source rectangle `[0, 100) × [0, 100)`. The stored value is
therefore not a sentinel distinguishable from valid source-pixel coordinates:
remapping reads source pixel `(0, 0)`, not a constant background. -/
theorem mapping_table_no_sentinel :
    Real.sqrt (vX 4 2 1 1 * vX 4 2 1 1 + vZ 2 1 * vZ 2 1) = 0 ∧
    mapEntry defaultCal 4 2 100 100 1 1 = (0, 0) ∧
    (0 ≤ (mapEntry defaultCal 4 2 100 100 1 1).1 ∧
     (mapEntry defaultCal 4 2 100 100 1 1).1 < 100 ∧
     0 ≤ (mapEntry defaultCal 4 2 100 100 1 1).2 ∧
     (mapEntry defaultCal 4 2 100 100 1 1).2 < 100) := by
  have hzero : mapEntry defaultCal 4 2 100 100 1 1 = (0, 0) := by
    unfold mapEntry
    rw [if_pos r_4_2_1_1]
  refine ⟨r_4_2_1_1, hzero, ?_⟩
  rw [hzero]
  norm_num

/-- C2 (amended): a pixel at the `r = 0` singularity, or whose computed source
coordinate falls outside `[0, Sw) × [0, Sh)`, is skipped by the loop, so the
table keeps the zero-initialized value `(0, 0)` there — which coincides with
the valid source coordinate `(0, 0)` rather than being a distinguishable
sentinel. Table construction is total (never raises) for every such pixel. -/
theorem mapping_table_unmapped_is_zero (cal : CalibrationSet) (W H Sw Sh x y : ℕ)
    (h : Real.sqrt (vX W H x y * vX W H x y + vZ H y * vZ H y) = 0 ∨
         ¬ (0 ≤ (srcCoord cal W H Sw Sh x y).1 ∧ (srcCoord cal W H Sw Sh x y).1 < Sw ∧
            0 ≤ (srcCoord cal W H Sw Sh x y).2 ∧ (srcCoord cal W H Sw Sh x y).2 < Sh)) :
    mapEntry cal W H Sw Sh x y = (0, 0) := by
  unfold mapEntry
  rcases h with h | h
  · rw [if_pos h]
  · by_cases hr : Real.sqrt (vX W H x y * vX W H x y + vZ H y * vZ H y) = 0
    · rw [if_pos hr]
    · rw [if_neg hr, if_neg h]

/-- C2 witness: the singular pixel `(1, 1)` of the 4×2 raster under the
built-in default calibration keeps the zero entry. -/
theorem mapping_table_unmapped_is_zero_witness :
    Real.sqrt (vX 4 2 1 1 * vX 4 2 1 1 + vZ 2 1 * vZ 2 1) = 0 ∧
    mapEntry defaultCal 4 2 99 99 1 1 = (0, 0) :=
  ⟨r_4_2_1_1,
   mapping_table_unmapped_is_zero defaultCal 4 2 99 99 1 1 (Or.inl r_4_2_1_1)⟩
